import Mathlib

/-!
Verification development for the ledger application `audit_app.py`.

The program maintains a spreadsheet-backed ledger.  Row 1 is a header
`[Date, Description, <sites...>, Closing Balance]`; later rows are
transaction rows, optionally followed by a trailing `TOTAL` summary row.
The four operations modelled here are `ensure_header`, `add_site`,
`update_total_row` and `add_transaction`.

Modelling choices:
* Python float values are modelled by `PyF`: a finite float is an exact
  rational (the amounts in every claim are small decimal literals for which
  this is exact), and the special values `inf`, `-inf` and `nan` - which
  Python `float()` accepts as the textual literals `inf`/`infinity`/`nan` -
  are separate constructors with IEEE-style addition (`nan` absorbing,
  `inf + -inf = nan`).  Equality on `PyF` is structural identity, used only
  to compare states; the program never compares floats.
* A grid cell is either a text cell or a numeric cell.  The remote store
  (Google Sheets via gspread) returns every cell as a string when read back;
  a numeric cell `Cell.num v` stands for a cell whose string form parses
  back (via Python `float`) to exactly `v`.
* The string parsers (`parseFloat` for `float()`, `parseDate` for
  `datetime.strptime(_, '%Y-%m-%d')`) model the CPython semantics on
  strings whose digits are ASCII; the exotic corner where a Python regex
  `\d` or `int()` accepts non-ASCII Unicode decimal digits is out of scope.
  Whitespace for `str.strip()` is the full Python whitespace set
  `pyIsSpace`; `float()` tolerates the slightly smaller Unicode
  `White_Space` set `floatIsSpace` (it rejects the ASCII separators
  28-31 that `str.strip()` removes).
* `get_all_values` returns a rectangular matrix padded with empty strings;
  `row_values` returns a single row with trailing empty cells trimmed.
* Each remote call can fail with a `RemoteAccessError`; a fault schedule
  `St.fault = some k` makes the k-th upcoming remote call (0-based) raise.
  Python exception flow is modelled by the `R` type: `Except` whose error
  carries the state reached at raise time, so that mutations performed
  before an exception persist - exactly as in the Python code.
-/

namespace AuditApp

/-- A Python float value: a finite float (idealized as an exact rational),
positive or negative infinity, or `nan`. -/
inductive PyF
  | fin (q : ℚ)
  | inf
  | ninf
  | nan
deriving DecidableEq

/-- IEEE-style float addition: `nan` absorbs, opposite infinities give
`nan`, an infinity absorbs finite values, finite values add exactly. -/
def PyF.add : PyF → PyF → PyF
  | .nan, _ => .nan
  | _, .nan => .nan
  | .inf, .ninf => .nan
  | .ninf, .inf => .nan
  | .inf, _ => .inf
  | _, .inf => .inf
  | .ninf, _ => .ninf
  | _, .ninf => .ninf
  | .fin a, .fin b => .fin (a + b)

/-- Float negation. -/
def PyF.neg : PyF → PyF
  | .fin q => .fin (-q)
  | .inf => .ninf
  | .ninf => .inf
  | .nan => .nan

instance : Add PyF := ⟨PyF.add⟩

instance : Neg PyF := ⟨PyF.neg⟩

instance : Zero PyF := ⟨PyF.fin 0⟩

instance (n : Nat) : OfNat PyF n := ⟨PyF.fin (OfNat.ofNat n)⟩

instance : ToString PyF :=
  ⟨fun v => match v with
    | .fin q => toString q
    | .inf => "inf"
    | .ninf => "-inf"
    | .nan => "nan"⟩

instance : AddCommMonoid PyF where
  add := (· + ·)
  zero := 0
  add_assoc a b c := by
    cases a <;> cases b <;> cases c <;>
      first
        | rfl
        | exact congrArg PyF.fin (add_assoc _ _ _)
  zero_add a := by
    cases a <;>
      first
        | rfl
        | exact congrArg PyF.fin (zero_add _)
  add_zero a := by
    cases a <;>
      first
        | rfl
        | exact congrArg PyF.fin (add_zero _)
  add_comm a b := by
    cases a <;> cases b <;>
      first
        | rfl
        | exact congrArg PyF.fin (add_comm _ _)
  nsmul := nsmulRec

/-- A cell of the remote grid: a text cell, or a numeric cell holding the
float value stored there. -/
inductive Cell
  | str (s : String)
  | num (v : PyF)
deriving DecidableEq

/-- The empty cell (gspread renders missing/empty cells as `""`). -/
def blank : Cell := Cell.str ""

/-- Python truthiness of a cell string (`if row[col]`): only `""` is falsy. -/
def Cell.isBlank : Cell → Bool
  | .str s => s == ""
  | .num _ => false

/-- Fold of a digit list into a natural number. -/
def natOfDigits (l : List Char) : Nat :=
  l.foldl (fun acc c => 10 * acc + (c.toNat - 48)) 0

def allDigits (l : List Char) : Bool := l.all Char.isDigit

/-- Python whitespace (the characters `str.strip()` removes and
`str.isspace()` accepts): tab, LF, VT, FF, CR (9-13), space (32), the
ASCII separators 28-31, NEL (133), NBSP (160), the Ogham space mark
(5760), the Unicode spaces U+2000-U+200A (8192-8202), the line and
paragraph separators (8232, 8233), narrow NBSP (8239), medium
mathematical space (8287) and ideographic space (12288). -/
def pyIsSpace (c : Char) : Bool :=
  let n := c.toNat
  (9 ≤ n && n ≤ 13) || n == 32 || (28 ≤ n && n ≤ 31) || n == 133 || n == 160 ||
    n == 5760 || (8192 ≤ n && n ≤ 8202) || n == 8232 || n == 8233 || n == 8239 ||
    n == 8287 || n == 12288

/-- Strip leading and trailing whitespace from a character list
(the semantics of Python `str.strip()`). -/
def trimChars (l : List Char) : List Char :=
  ((l.dropWhile pyIsSpace).reverse.dropWhile pyIsSpace).reverse

/-- The whitespace `float()` tolerates around a literal: the Unicode
`White_Space` characters - Python's `str.isspace()` set minus the ASCII
separators 28-31, which `float()` rejects although `str.strip()` removes
them. -/
def floatIsSpace (c : Char) : Bool :=
  pyIsSpace c && !(28 ≤ c.toNat && c.toNat ≤ 31)

/-- Strip the whitespace `float()` tolerates. -/
def trimFloat (l : List Char) : List Char :=
  ((l.dropWhile floatIsSpace).reverse.dropWhile floatIsSpace).reverse

/-- Python `s.strip()`. -/
def pyStrip (s : String) : String := String.mk (trimChars s.data)

/-- Split a character list at every occurrence of `sep`
(the semantics of Python `str.split(sep)`). -/
def splitOnC (sep : Char) : List Char → List (List Char)
  | [] => [[]]
  | c :: cs =>
    if c == sep then [] :: splitOnC sep cs
    else
      match splitOnC sep cs with
      | [] => [[c]]
      | p :: ps => (c :: p) :: ps

/-- Mantissa of a decimal literal: digits with an optional single point. -/
def parseMantissa (l : List Char) : Option ℚ :=
  match splitOnC '.' l with
  | [a] => if !a.isEmpty && allDigits a then some (natOfDigits a) else none
  | [a, b] =>
    if !(a ++ b).isEmpty && allDigits a && allDigits b then
      some ((natOfDigits a : ℚ) + (natOfDigits b : ℚ) / (10 : ℚ) ^ b.length)
    else none
  | _ => none

/-- Optionally signed decimal integer (exponent part of a float literal). -/
def parseSignedInt (l : List Char) : Option ℤ :=
  match l with
  | '+' :: rest => if !rest.isEmpty && allDigits rest then some (natOfDigits rest : ℤ) else none
  | '-' :: rest => if !rest.isEmpty && allDigits rest then some (-(natOfDigits rest : ℤ)) else none
  | rest => if !rest.isEmpty && allDigits rest then some (natOfDigits rest : ℤ) else none

/-- Unsigned float literal: mantissa with optional exponent. -/
def parseUnsigned (l : List Char) : Option ℚ :=
  match splitOnC 'e' l with
  | [m] => parseMantissa m
  | [m, e] =>
    match parseMantissa m, parseSignedInt e with
    | some mv, some ev => some (mv * (10 : ℚ) ^ ev)
    | _, _ => none
  | _ => none

/-- Underscore grouping rule of CPython numeric literals accepted by
`float()`: every underscore must sit between two digits (so no leading,
trailing, doubled underscores, none adjacent to the point, the exponent
marker or a sign).  `p` is the previous character (a non-digit sentinel at
the start). -/
def usOkAux : Char → List Char → Bool
  | _, [] => true
  | p, c :: rest =>
    if c == '_' then
      p.isDigit && (match rest with | c2 :: _ => c2.isDigit | [] => false) && usOkAux c rest
    else usOkAux c rest

/-- Every underscore of `l` sits between two digits. -/
def usOk (l : List Char) : Bool := usOkAux ' ' l

/-- Finite branch of `float()`: a decimal or scientific literal (sign
already removed, underscores already validated and removed). -/
def parseFin (neg : Bool) (l : List Char) : Option PyF :=
  match parseUnsigned l with
  | some q => some (.fin (if neg then -q else q))
  | none => none

/-- Body of `float()` after whitespace stripping, lowercasing and sign
removal: the special literals `inf`, `infinity` and `nan` (a sign on `nan`
is ignored, Python's `-nan` being the same quiet nan), else a finite
literal with underscore grouping. -/
def parseUF (neg : Bool) (rest : List Char) : Option PyF :=
  if rest == [ 'i', 'n', 'f' ] || rest == [ 'i', 'n', 'f', 'i', 'n', 'i', 't', 'y' ] then
    some (if neg then .ninf else .inf)
  else if rest == [ 'n', 'a', 'n' ] then
    some .nan
  else if usOk rest then
    parseFin neg (rest.filter (fun c => c != '_'))
  else none

/-- Model of Python `float(s)`: surrounding whitespace is tolerated, an
optional sign, then `inf`/`infinity`/`nan` in any case, or digits with an
optional point and an optional exponent, with underscores allowed between
digits.  Returns `none` exactly when the Python call raises
`ValueError`. -/
def parseFloat (s : String) : Option PyF :=
  match (trimFloat s.data).map Char.toLower with
  | '+' :: rest => parseUF false rest
  | '-' :: rest => parseUF true rest
  | rest => parseUF false rest

/-- `float(cell-string)`: a numeric cell reads back as its own value. -/
def Cell.toF : Cell → Option PyF
  | .str s => parseFloat s
  | .num v => some v

def isLeap (y : Nat) : Bool := y % 4 == 0 && (!(y % 100 == 0) || y % 400 == 0)

def daysInMonth (y m : Nat) : Nat :=
  if m == 2 then (if isLeap y then 29 else 28)
  else if m == 4 || m == 6 || m == 9 || m == 11 then 30
  else 31

/-- The `%Y` field of CPython `strptime`: exactly four digits. -/
def parseYear (l : List Char) : Option Nat :=
  if l.length == 4 && allDigits l then some (natOfDigits l) else none

/-- The `%m` field of CPython `strptime` (regex `1[0-2]|0[1-9]|[1-9]`):
one or two digits with value 1-12. -/
def parseMonth (l : List Char) : Option Nat :=
  if (l.length == 1 || l.length == 2) && allDigits l then
    let v := natOfDigits l
    if 1 ≤ v ∧ v ≤ 12 then some v else none
  else none

/-- The `%d` field of CPython `strptime`
(regex `3[01]|[12]\d|0[1-9]|[1-9]| [1-9]`): one or two digits with value
1-31, or a space followed by a nonzero digit. -/
def parseDay (l : List Char) : Option Nat :=
  match l with
  | [ ' ', c ] =>
    if c.isDigit ∧ c ≠ '0' then some (c.toNat - 48) else none
  | _ =>
    if (l.length == 1 || l.length == 2) && allDigits l then
      let v := natOfDigits l
      if 1 ≤ v ∧ v ≤ 31 then some v else none
    else none

/-- Model of `datetime.strptime(s, '%Y-%m-%d')` succeeding: three dash
separated fields - a four-digit year, a one-or-two-digit month 1-12, a day
matching the `%d` regex (optionally space padded) - and the
`datetime(year, month, day)` constructor accepting them: year at least 1
(`MINYEAR`), day valid for that month (leap years included). -/
def parseDate (s : String) : Bool :=
  match splitOnC '-' s.data with
  | [y, m, d] =>
    match parseYear y, parseMonth m, parseDay d with
    | some yv, some mv, some dv =>
      decide (1 ≤ yv ∧ dv ≤ daysInMonth yv mv)
    | _, _, _ => false
  | _ => false

/-- Pad a row with empty cells up to width `w`. -/
def padTo (w : Nat) (r : List Cell) : List Cell :=
  r ++ List.replicate (w - r.length) blank

/-- Width of the rectangular region the remote store reports. -/
def gridWidth (g : List (List Cell)) : Nat :=
  g.foldr (fun r w => max r.length w) 0

/-- gspread `get_all_values()`: all rows, padded to a rectangle. -/
def getAllValues (g : List (List Cell)) : List (List Cell) :=
  g.map (padTo (gridWidth g))

/-- Drop trailing empty cells of a row. -/
def rtrimRow : List Cell → List Cell
  | [] => []
  | c :: cs =>
    match rtrimRow cs with
    | [] => if c.isBlank then [] else [c]
    | c' :: cs' => c :: c' :: cs'

/-- gspread `row_values(n)`: the 1-based n-th row, trailing empties trimmed. -/
def rowValues (g : List (List Cell)) (n : Nat) : List Cell :=
  rtrimRow (g.getD (n - 1) [])

/-- gspread `insert_row(r, index=n)`. -/
def insertRowAt (g : List (List Cell)) (n : Nat) (r : List Cell) : List (List Cell) :=
  g.take (n - 1) ++ r :: g.drop (n - 1)

/-- gspread `update('A1', [vals])`: overwrite the first `vals.length` cells
of row 1. -/
def updateA1 (g : List (List Cell)) (vals : List Cell) : List (List Cell) :=
  match g with
  | [] => [vals]
  | r :: rs => (vals ++ r.drop vals.length) :: rs

/-- gspread `delete_rows(n)`: remove the 1-based n-th row. -/
def deleteRowAt (g : List (List Cell)) (n : Nat) : List (List Cell) :=
  g.take (n - 1) ++ g.drop n

/-- Insert `x` into a row at 0-based position `i` (clamping like Python
`list.insert`). -/
def insAt (i : Nat) (x : Cell) (l : List Cell) : List Cell :=
  l.take i ++ x :: l.drop i

/-- One column of values inserted at 1-based column `ci` across the whole
grid: row `i` receives `vals[i]` (or an empty cell beyond `vals`). -/
def insCol (i ci : Nat) (vals : List Cell) : List (List Cell) → List (List Cell)
  | [] => []
  | r :: rs => insAt (ci - 1) (vals.getD i blank) (padTo (ci - 1) r) :: insCol (i + 1) ci vals rs

/-- gspread `insert_cols([vals], col=ci)` for a single column. -/
def insertColAt (g : List (List Cell)) (ci : Nat) (vals : List Cell) : List (List Cell) :=
  insCol 0 ci vals g

/-- `appendRow` (gspread `append_row`). -/
def appendRow (g : List (List Cell)) (r : List Cell) : List (List Cell) :=
  g ++ [r]

/-- Python `cell == t` where the cell was read back as a string and `t` is a
string: a numeric cell's string form is compared in the source only against
non-numeric-looking header names, so it never matches. -/
def cellEqS (c : Cell) (t : String) : Bool :=
  match c with
  | .str s => s == t
  | .num _ => false

/-- Python `t in header`. -/
def cellMem (l : List Cell) (t : String) : Bool := l.any (cellEqS · t)

/-- Python `header.index(t)`: 0-based index of the first occurrence
(`none` models the `ValueError`). -/
def cellIdx (l : List Cell) (t : String) : Option Nat :=
  match l with
  | [] => none
  | c :: cs => if cellEqS c t then some 0 else (cellIdx cs t).map (· + 1)

/-- `header.index(t)` in a context where `t in header` is known to hold. -/
def cellIdxD (l : List Cell) (t : String) : Nat := (cellIdx l t).getD l.length

/-- Python `cell.upper() == "TOTAL"` on the string form of a cell. -/
def Cell.upperIsTotal : Cell → Bool
  | .str s => s.data.map Char.toUpper == [ 'T', 'O', 'T', 'A', 'L' ]
  | .num _ => false

/-- Python `cell.strip() == ""`. -/
def Cell.stripEmpty : Cell → Bool
  | .str s => (trimChars s.data).isEmpty
  | .num _ => false

/-- A TOTAL summary row: first cell uppercases to `TOTAL`. -/
def isTotalRow (r : List Cell) : Bool := (r.getD 0 blank).upperIsTotal

/-- Python `rows and rows[-1][0].upper() == "TOTAL"`. -/
def isTrailingTotal (rows : List (List Cell)) : Bool :=
  match rows.getLast? with
  | some r => isTotalRow r
  | none => false

/-- A Python exception: `ValueError` or a remote-access (gspread) error.
`except ValueError` catches only the former, `except Exception` both. -/
inductive PyErr
  | valueError (m : String)
  | remote (m : String)
deriving DecidableEq

def PyErr.msg : PyErr → String
  | .valueError m => m
  | .remote m => m

/-- State of the world: the remote grid plus the fault schedule
(`some k`: the k-th upcoming remote call raises). -/
structure St where
  grid : List (List Cell)
  fault : Option Nat
deriving DecidableEq

/-- A Python computation: it either returns a value together with the state
it reached, or raises carrying the state reached at raise time (remote
mutations performed before the exception persist). -/
abbrev R (α : Type) := Except (PyErr × St) (α × St)

/-- Sequencing of two steps of a Python computation: the second runs from
the state the first returned; an exception short-circuits. -/
def rbind {α β : Type} (x : R α) (f : α → St → R β) : R β :=
  match x with
  | .ok (a, st) => f a st
  | .error e => .error e

/-- Perform one remote call: raises `RemoteAccessError` when scheduled. -/
def rcall (st : St) : R Unit :=
  match st.fault with
  | some 0 => .error (.remote "RemoteAccessError", st)
  | some (k + 1) => .ok ((), { st with fault := some k })
  | none => .ok ((), st)

def getAllValuesR (st : St) : R (List (List Cell)) :=
  rbind (rcall st) fun _ st => .ok (getAllValues st.grid, st)

def rowValuesR (n : Nat) (st : St) : R (List Cell) :=
  rbind (rcall st) fun _ st => .ok (rowValues st.grid n, st)

def insertRowR (r : List Cell) (n : Nat) (st : St) : R Unit :=
  rbind (rcall st) fun _ st => .ok ((), { st with grid := insertRowAt st.grid n r })

def updateA1R (vals : List Cell) (st : St) : R Unit :=
  rbind (rcall st) fun _ st => .ok ((), { st with grid := updateA1 st.grid vals })

def insertColsR (vals : List Cell) (ci : Nat) (st : St) : R Unit :=
  rbind (rcall st) fun _ st => .ok ((), { st with grid := insertColAt st.grid ci vals })

def deleteRowsR (n : Nat) (st : St) : R Unit :=
  rbind (rcall st) fun _ st => .ok ((), { st with grid := deleteRowAt st.grid n })

def appendRowR (r : List Cell) (st : St) : R Unit :=
  rbind (rcall st) fun _ st => .ok ((), { st with grid := appendRow st.grid r })

def default_header : List Cell :=
  [Cell.str "Date", Cell.str "Description", Cell.str "Closing Balance"]

/-- Body of `ensure_header` (the contents of its `try` block). -/
def ehBody (st : St) : R Unit :=
  rbind (getAllValuesR st) fun rows st =>
    if rows.isEmpty then
      insertRowR default_header 1 st
    else if (rows.getD 0 []).all Cell.stripEmpty then
      updateA1R default_header st
    else
      .ok ((), st)

/-- `ensure_header()`: only set the header if the sheet is completely empty;
any exception is caught and logged. -/
def ensure_header (st : St) : R Unit :=
  match ehBody st with
  | .ok x => .ok x
  | .error (_, st') => .ok ((), st')

/-- Contents of the `try` block of `add_site` (from `header.index("Closing
Balance")` to the success return).  `st.grid.length` models
`SHEET.row_count`, the current row extent of the grid. -/
def asTry (new_site : String) (header : List Cell) (st : St) :
    R (String × Option (List Cell)) :=
  match cellIdx header "Closing Balance" with
  | none => .error (.valueError "'Closing Balance' is not in list", st)
  | some i =>
    let closing_index := i + 1
    let values_to_insert : List Cell :=
      Cell.str new_site :: List.replicate (st.grid.length - 1) blank
    rbind (insertColsR values_to_insert closing_index st) fun _ st =>
    rbind (rowValuesR 1 st) fun updated st =>
    .ok (("✅ Site '" ++ new_site ++ "' added", some ((updated.drop 2).dropLast)), st)

/-- `add_site(new_site)`.  Note that the initial `SHEET.row_values(1)` is
outside the `try` block in the source, so a remote failure there escapes. -/
def add_site (new_site : String) (st : St) : R (String × Option (List Cell)) :=
  let new_site := pyStrip new_site
  if new_site == "" then
    .ok (("⚠️ Enter a site name first", none), st)
  else
    rbind (rowValuesR 1 st) fun header st =>
    if cellMem header new_site then
      .ok (("⚠️ Site already exists",
            some (if 4 ≤ header.length then (header.drop 2).dropLast else [])), st)
    else
      match asTry new_site header st with
      | .ok x => .ok x
      | .error (.valueError _, st') =>
        .ok (("❌ 'Closing Balance' column not found", none), st')
      | .error (.remote m, st') =>
        .ok (("❌ Failed to add site: " ++ m, none), st')

/-- The TOTAL row written by `update_total_row`:
`["TOTAL", "", sum_1, ..., sum_k, closing_total]`. -/
def totalsRow (sums : List PyF) : List Cell :=
  Cell.str "TOTAL" :: Cell.str "" :: (sums.map Cell.num ++ [Cell.num sums.sum])

/-- `sum(float(row[col]) if row[col] else 0 for row in rows)`: a blank cell
contributes 0 without being parsed; a non-blank cell is passed to `float`,
which raises `ValueError` on non-numeric text. -/
def colSumE (col : Nat) : List (List Cell) → Except PyErr PyF
  | [] => .ok 0
  | r :: rs =>
    let c := r.getD col blank
    if c.isBlank then colSumE col rs
    else
      match c.toF with
      | some v => (colSumE col rs).map (fun x => v + x)
      | none => .error (.valueError "could not convert string to float")

/-- The per-column sums of the `for col in site_columns` loop. -/
def colSumsE (cols : List Nat) (rows : List (List Cell)) : Except PyErr (List PyF) :=
  match cols with
  | [] => .ok []
  | c :: cs =>
    match colSumE c rows, colSumsE cs rows with
    | .ok v, .ok vs => .ok (v :: vs)
    | .error e, _ => .error e
    | .ok _, .error e => .error e

/-- Body of `update_total_row` (the contents of its `try` block).
`site_columns = range(2, len(header) - 1)`. -/
def utrBody (st : St) : R Unit :=
  rbind (rowValuesR 1 st) fun header st =>
  let site_columns := List.range' 2 (header.length - 3)
  rbind (getAllValuesR st) fun all st =>
  let rows := all.drop 1
  rbind (if isTrailingTotal rows then
           rbind (deleteRowsR (rows.length + 1) st) fun _ st => .ok (rows.dropLast, st)
         else .ok (rows, st)) fun rows st =>
  match colSumsE site_columns rows with
  | .error e => .error (e, st)
  | .ok sums => appendRowR (totalsRow sums) st

/-- `update_total_row()`: any exception is caught and logged; mutations
performed before the exception (the TOTAL-row deletion) persist. -/
def update_total_row (st : St) : R Unit :=
  match utrBody st with
  | .ok x => .ok x
  | .error (_, st') => .ok ((), st')

/-- Contribution of one row to the running-balance scan of
`add_transaction`: `for i in range(2, closing_index)`, each cell that
parses as a float is added, every other cell is skipped. -/
def rowContrib (closing_index : Nat) (r : List Cell) : PyF :=
  ((List.range' 2 (closing_index - 2)).map (fun i => ((r.getD i blank).toF).getD 0)).sum

/-- The double loop of `add_transaction` summing every parseable cell in
columns `2..closing_index-1` of every row of `rows`. -/
def scanTotal (closing_index : Nat) (rows : List (List Cell)) : PyF :=
  rows.foldl (fun acc r => acc + rowContrib closing_index r) 0

/-- The new row built by `add_transaction`:
`[date, description] + [""] * (closing_index - 2) + [total_closing]`, then
`new_row[site_col_index - 1] = amount`. -/
def newTxnRow (date description : String) (closing_index site_col_index : Nat)
    (amount total_closing : PyF) : List Cell :=
  (Cell.str date :: Cell.str description ::
    (List.replicate (closing_index - 2) blank ++ [Cell.num total_closing])).set
    (site_col_index - 1) (Cell.num amount)

/-- Contents of the `try` block of `add_transaction` (everything after
validation). -/
def atTry (date site description : String) (amount : PyF) (st : St) : R String :=
  rbind (rowValuesR 1 st) fun header st =>
  if !(cellMem header site) then
    .ok ("⚠️ Site column missing", st)
  else
    let site_col_index := cellIdxD header site + 1
    let closing_index := header.length
    rbind (getAllValuesR st) fun all st =>
    let rows := all.drop 1
    let total_closing := scanTotal closing_index rows + amount
    let new_row := newTxnRow date description closing_index site_col_index amount total_closing
    rbind (if isTrailingTotal rows then deleteRowsR (rows.length + 1) st
           else .ok ((), st)) fun _ st =>
    rbind (appendRowR new_row st) fun _ st =>
    rbind (update_total_row st) fun _ st =>
    .ok ("✅ Transaction added: " ++ date ++ ", " ++ site ++ ", " ++ description ++ ", "
          ++ toString amount, st)

/-- `add_transaction(date, site, description, amount_text)`: validation
first (site placeholder / date format / amount numeric), then the remote
block with its catch-all handler. -/
def add_transaction (date site description amount_text : String) (st : St) : R String :=
  let date := pyStrip date
  let site := pyStrip site
  let description := pyStrip description
  let amount_text := pyStrip amount_text
  if site == "Select Site" || site == "" then
    .ok ("⚠️ Please select a valid site", st)
  else if !(parseDate date) then
    .ok ("⚠️ Invalid date format", st)
  else
    match parseFloat amount_text with
    | none => .ok ("⚠️ Amount must be a number", st)
    | some amount =>
      match atTry date site description amount st with
      | .ok x => .ok x
      | .error (e, st') => .ok ("❌ Failed to add transaction: " ++ e.msg, st')

/-- The grid left behind by a fault-free `update_total_row`. -/
def utrRun (g : List (List Cell)) : List (List Cell) :=
  match update_total_row ⟨g, none⟩ with
  | .ok (_, st) => st.grid
  | .error (_, st) => st.grid

/-- The data rows a read of the whole grid yields: everything after the
header, padded to the rectangle. -/
def dataRows (g : List (List Cell)) : List (List Cell) :=
  (getAllValues g).drop 1

/-- The rows `update_total_row` sums over: the data rows, with a trailing
TOTAL row dropped. -/
def scannedRows (g : List (List Cell)) : List (List Cell) :=
  if isTrailingTotal (dataRows g) then (dataRows g).dropLast else dataRows g

/-- The grid after the TOTAL-row strip both operations perform. -/
def stripGrid (g : List (List Cell)) : List (List Cell) :=
  if isTrailingTotal (dataRows g) then g.dropLast else g

/-- The 0-based site-column indices `range(2, len(header) - 1)`. -/
def siteColumns (g : List (List Cell)) : List Nat :=
  List.range' 2 ((rowValues g 1).length - 3)

/-- Specification-side column sum: the numeric value of column `col` across
`rows`, blank and non-numeric cells counted as zero. -/
def claimColSum (col : Nat) (rows : List (List Cell)) : PyF :=
  (rows.map (fun r => ((r.getD col blank).toF).getD 0)).sum

/-- Number of TOTAL-marked rows in a grid. -/
def countTotalRows (g : List (List Cell)) : Nat :=
  g.countP (fun r => isTotalRow r)

/-- The last row of a grid is a TOTAL row. -/
def lastIsTotal (g : List (List Cell)) : Bool :=
  match g.getLast? with
  | some r => isTotalRow r
  | none => false

/-- An operation's run ended normally (no Python exception escaped). -/
def rIsOk {α : Type} : R α → Bool
  | .ok _ => true
  | .error _ => false

/-! ### Concrete example sheets (the scenario of the specification's example:
sites `SiteA`, `SiteB`, transactions `(2024-01-01, SiteA, rent, 100)` then
`(2024-01-02, SiteB, food, -20)`) -/

def exHeader : List Cell :=
  [Cell.str "Date", Cell.str "Description", Cell.str "SiteA", Cell.str "SiteB",
   Cell.str "Closing Balance"]

def exG0 : List (List Cell) := [exHeader]

/-- The row the code writes for the first transaction: note its six cells
against the five header columns - the closing value sits one column to the
right of `Closing Balance`. -/
def exRow1 : List Cell :=
  [Cell.str "2024-01-01", Cell.str "rent", Cell.num 100, Cell.str "", Cell.str "",
   Cell.num 100]

def exG1 : List (List Cell) :=
  [exHeader, exRow1,
   [Cell.str "TOTAL", Cell.str "", Cell.num 100, Cell.num 0, Cell.num 100]]

/-- The row the code writes for the second transaction: closing value 280,
where the specification's example expects 80. -/
def exRow2 : List Cell :=
  [Cell.str "2024-01-02", Cell.str "food", Cell.str "", Cell.num (-20), Cell.str "",
   Cell.num 280]

def exG2 : List (List Cell) :=
  [exHeader, exRow1, exRow2,
   [Cell.str "TOTAL", Cell.str "", Cell.num 100, Cell.num (-20), Cell.num 80]]

/-- A sheet holding one transaction row with non-numeric text in the
`SiteA` column. -/
def exG3 : List (List Cell) :=
  [[Cell.str "Date", Cell.str "Description", Cell.str "SiteA", Cell.str "Closing Balance"],
   [Cell.str "2024-01-01", Cell.str "x", Cell.str "abc", Cell.str ""]]

/-! ### Float value computation -/

theorem PyF.fin_add_fin (a b : ℚ) : PyF.fin a + PyF.fin b = PyF.fin (a + b) := rfl

theorem PyF.neg_fin (q : ℚ) : -PyF.fin q = PyF.fin (-q) := rfl

theorem PyF.zero_eq : (0 : PyF) = PyF.fin 0 := rfl

theorem PyF.fin_ofNat (n : ℕ) : (OfNat.ofNat n : PyF) = PyF.fin (OfNat.ofNat n) := rfl

/-! ### Basic lemmas about rows, padding and cells -/

theorem getD_replicate_blank (k j : Nat) : (List.replicate k blank).getD j blank = blank := by
  induction k generalizing j with
  | zero => cases j <;> rfl
  | succ n ih => cases j with
    | zero => rfl
    | succ j => exact ih j

theorem getD_padTo (w : Nat) (r : List Cell) (i : Nat) :
    (padTo w r).getD i blank = r.getD i blank := by
  unfold padTo
  rcases lt_or_ge i r.length with h | h
  · exact List.getD_append _ _ _ _ h
  · rw [List.getD_append_right _ _ _ _ h, getD_replicate_blank]
    rw [List.getD_eq_getElem?_getD, List.getElem?_eq_none (by omega)]
    rfl

theorem padTo_of_le (w : Nat) (r : List Cell) (h : w ≤ r.length) : padTo w r = r := by
  unfold padTo
  rw [Nat.sub_eq_zero_of_le h]
  simp

theorem isTotalRow_padTo (w : Nat) (r : List Cell) :
    isTotalRow (padTo w r) = isTotalRow r := by
  unfold isTotalRow
  rw [getD_padTo]

theorem rowContrib_padTo (ci w : Nat) (r : List Cell) :
    rowContrib ci (padTo w r) = rowContrib ci r := by
  unfold rowContrib
  simp only [getD_padTo]

theorem dataRows_eq (g : List (List Cell)) :
    dataRows g = (g.drop 1).map (padTo (gridWidth g)) := by
  unfold dataRows getAllValues
  rw [List.map_drop]

theorem dataRows_length (g : List (List Cell)) : (dataRows g).length = g.length - 1 := by
  simp [dataRows, getAllValues]

theorem isTrailingTotal_nil : isTrailingTotal [] = false := rfl

theorem isTrailingTotal_ne_nil {l : List (List Cell)} (h : isTrailingTotal l = true) :
    l ≠ [] := by
  intro he
  rw [he, isTrailingTotal_nil] at h
  exact Bool.false_ne_true h

theorem isTrailingTotal_map_padTo (w : Nat) (l : List (List Cell)) :
    isTrailingTotal (l.map (padTo w)) = isTrailingTotal l := by
  unfold isTrailingTotal
  rw [List.getLast?_map]
  cases l.getLast? with
  | none => rfl
  | some r => simp [isTotalRow_padTo]

theorem deleteRowAt_length (g : List (List Cell)) : deleteRowAt g g.length = g.dropLast := by
  unfold deleteRowAt
  rw [List.drop_length, List.append_nil, List.dropLast_eq_take]

/-! ### Fault-free reduction -/

theorem rbind_ok {α β : Type} (a : α) (st : St) (f : α → St → R β) :
    rbind (.ok (a, st)) f = f a st := rfl

theorem rbind_error {α β : Type} (e : PyErr × St) (f : α → St → R β) :
    rbind (.error e : R α) f = .error e := rfl

theorem rcall_none (g : List (List Cell)) : rcall ⟨g, none⟩ = .ok ((), ⟨g, none⟩) := rfl

/-! ### Characterization of a fault-free `update_total_row` -/

theorem utr_run_eq (g : List (List Cell)) :
    update_total_row ⟨g, none⟩ =
      .ok ((), ⟨(match colSumsE (siteColumns g) (scannedRows g) with
                 | .ok sums => stripGrid g ++ [totalsRow sums]
                 | .error _ => stripGrid g), none⟩) := by
  have hrows : (getAllValues g).drop 1 = dataRows g := rfl
  by_cases hTT : isTrailingTotal (dataRows g) = true
  · have hne : dataRows g ≠ [] := isTrailingTotal_ne_nil hTT
    have hlen : 1 ≤ g.length := by
      rcases g with _ | ⟨r, rs⟩
      · exact absurd rfl hne
      · simp
    have hdel : deleteRowAt g ((dataRows g).length + 1) = g.dropLast := by
      have : (dataRows g).length + 1 = g.length := by
        rw [dataRows_length]
        omega
      rw [this, deleteRowAt_length]
    simp only [update_total_row, utrBody, rowValuesR, getAllValuesR, deleteRowsR,
      appendRowR, rcall, rbind, hrows, hTT, if_true, scannedRows, stripGrid,
      siteColumns, hdel]
    cases hcs : colSumsE (List.range' 2 ((rowValues g 1).length - 3)) ((dataRows g).dropLast) with
    | ok sums => rfl
    | error e => rfl
  · have hTT2 : isTrailingTotal (dataRows g) = false := by
      rwa [Bool.not_eq_true] at hTT
    simp only [update_total_row, utrBody, rowValuesR, getAllValuesR, deleteRowsR,
      appendRowR, rcall, rbind, hrows, hTT2, Bool.false_eq_true, if_false,
      scannedRows, stripGrid, siteColumns]
    cases hcs : colSumsE (List.range' 2 ((rowValues g 1).length - 3)) (dataRows g) with
    | ok sums => rfl
    | error e => rfl

theorem utr_run_grid (g : List (List Cell)) :
    update_total_row ⟨g, none⟩ = .ok ((), ⟨utrRun g, none⟩) := by
  rw [utr_run_eq]
  unfold utrRun
  rw [utr_run_eq]

theorem utrRun_eq (g : List (List Cell)) :
    utrRun g = (match colSumsE (siteColumns g) (scannedRows g) with
                | .ok sums => stripGrid g ++ [totalsRow sums]
                | .error _ => stripGrid g) := by
  unfold utrRun
  rw [utr_run_eq]

/-! ### Column sums -/

theorem isBlank_iff_eq_blank (c : Cell) : c.isBlank = true ↔ c = blank := by
  cases c with
  | str s =>
    simp only [Cell.isBlank, beq_iff_eq, blank]
    constructor
    · intro h; rw [h]
    · intro h; cases h; rfl
  | num q =>
    simp only [Cell.isBlank, blank]
    constructor
    · intro h; exact absurd h (by simp)
    · intro h; cases h

theorem toF_blank : Cell.toF blank = none := by
  show parseFloat "" = none
  rfl

theorem isBlank_blank : blank.isBlank = true := rfl

theorem colSumE_ok_of_clean (col : Nat) (rows : List (List Cell))
    (h : ∀ r ∈ rows, (r.getD col blank).isBlank = true ∨ ((r.getD col blank).toF).isSome = true) :
    colSumE col rows = .ok (claimColSum col rows) := by
  induction rows with
  | nil => rfl
  | cons r rs ih =>
    have hr := h r (by simp)
    have hrs := ih (fun x hx => h x (by simp [hx]))
    unfold colSumE
    by_cases hb : (r.getD col blank).isBlank = true
    · have hc : r.getD col blank = blank := (isBlank_iff_eq_blank _).mp hb
      rw [if_pos hb, hrs]
      simp only [claimColSum, List.map_cons, List.sum_cons, hc, toF_blank, Option.getD_none,
        zero_add]
    · rcases hr with hr | hr
      · exact absurd hr hb
      · cases hsome : (r.getD col blank).toF with
        | none => rw [hsome] at hr; exact absurd hr (by simp)
        | some v =>
          rw [if_neg hb, hsome, hrs]
          simp only [Except.map, claimColSum, List.map_cons, List.sum_cons, hsome,
            Option.getD_some]

theorem colSumE_error_of_bad (col : Nat) (rows : List (List Cell))
    (h : ∃ r ∈ rows, (r.getD col blank).isBlank = false ∧ (r.getD col blank).toF = none) :
    ∃ e, colSumE col rows = .error e := by
  induction rows with
  | nil => rcases h with ⟨r, hr, _⟩; cases hr
  | cons r rs ih =>
    unfold colSumE
    rcases h with ⟨x, hx, hnb, hnone⟩
    rcases List.mem_cons.mp hx with hx | hx
    · subst hx
      rw [if_neg (by rw [hnb]; exact Bool.false_ne_true), hnone]
      exact ⟨_, rfl⟩
    · by_cases hb : (r.getD col blank).isBlank = true
      · rw [if_pos hb]
        exact ih ⟨x, hx, hnb, hnone⟩
      · rw [if_neg hb]
        cases hsome : (r.getD col blank).toF with
        | none => exact ⟨_, rfl⟩
        | some v =>
          rcases ih ⟨x, hx, hnb, hnone⟩ with ⟨e, he⟩
          rw [he]
          exact ⟨e, rfl⟩

theorem colSumsE_ok_of_clean (cols : List Nat) (rows : List (List Cell))
    (h : ∀ c ∈ cols, ∀ r ∈ rows,
      (r.getD c blank).isBlank = true ∨ ((r.getD c blank).toF).isSome = true) :
    colSumsE cols rows = .ok (cols.map (fun c => claimColSum c rows)) := by
  induction cols with
  | nil => rfl
  | cons c cs ih =>
    unfold colSumsE
    rw [colSumE_ok_of_clean c rows (h c (by simp)), ih (fun x hx => h x (by simp [hx]))]
    rfl

theorem colSumsE_error_of_bad (cols : List Nat) (rows : List (List Cell))
    (h : ∃ c ∈ cols, ∃ r ∈ rows,
      (r.getD c blank).isBlank = false ∧ (r.getD c blank).toF = none) :
    ∃ e, colSumsE cols rows = .error e := by
  induction cols with
  | nil => rcases h with ⟨c, hc, _⟩; cases hc
  | cons c cs ih =>
    unfold colSumsE
    rcases h with ⟨x, hx, hbad⟩
    rcases List.mem_cons.mp hx with hx | hx
    · subst hx
      rcases colSumE_error_of_bad x _ hbad with ⟨e, he⟩
      rw [he]
      exact ⟨e, rfl⟩
    · rcases ih ⟨x, hx, hbad⟩ with ⟨e, he⟩
      rw [he]
      cases hcs : colSumE c rows with
      | ok v => exact ⟨e, rfl⟩
      | error e2 => exact ⟨e2, rfl⟩

/-! ### The running-balance scan -/

theorem foldl_add_rowContrib (ci : Nat) (l : List (List Cell)) (a : PyF) :
    l.foldl (fun acc r => acc + rowContrib ci r) a = a + (l.map (rowContrib ci)).sum := by
  induction l generalizing a with
  | nil => simp
  | cons r rs ih => simp [List.foldl_cons, ih, add_assoc]

theorem scanTotal_eq_sum (ci : Nat) (rows : List (List Cell)) :
    scanTotal ci rows = (rows.map (rowContrib ci)).sum := by
  unfold scanTotal
  rw [foldl_add_rowContrib, zero_add]

theorem scanTotal_concat (ci : Nat) (xs : List (List Cell)) (r : List Cell) :
    scanTotal ci (xs ++ [r]) = scanTotal ci xs + rowContrib ci r := by
  simp [scanTotal_eq_sum]

/-! ### Characterization of a fault-free, validated `add_transaction` -/

theorem stripGrid_of_tt {g : List (List Cell)} (h : isTrailingTotal (dataRows g) = true) :
    stripGrid g = g.dropLast := by
  simp [stripGrid, h]

theorem stripGrid_of_not_tt {g : List (List Cell)} (h : isTrailingTotal (dataRows g) = false) :
    stripGrid g = g := by
  simp [stripGrid, h]

theorem at_run_eq (date site description amount_text : String) (q : PyF) (g : List (List Cell))
    (h1 : (pyStrip site == "Select Site" || pyStrip site == "") = false)
    (h2 : parseDate (pyStrip date) = true)
    (h3 : parseFloat (pyStrip amount_text) = some q)
    (h4 : cellMem (rowValues g 1) (pyStrip site) = true) :
    add_transaction date site description amount_text ⟨g, none⟩ =
      .ok ("✅ Transaction added: " ++ pyStrip date ++ ", " ++ pyStrip site ++ ", "
            ++ pyStrip description ++ ", " ++ toString q,
        ⟨utrRun (stripGrid g ++
            [newTxnRow (pyStrip date) (pyStrip description) (rowValues g 1).length
              (cellIdxD (rowValues g 1) (pyStrip site) + 1) q
              (scanTotal (rowValues g 1).length (dataRows g) + q)]), none⟩) := by
  have hrows : (getAllValues g).drop 1 = dataRows g := rfl
  by_cases hTT : isTrailingTotal (dataRows g) = true
  · have hne : dataRows g ≠ [] := isTrailingTotal_ne_nil hTT
    have hlen : 1 ≤ g.length := by
      rcases g with _ | ⟨r, rs⟩
      · exact absurd rfl hne
      · simp
    have hdel : deleteRowAt g ((dataRows g).length + 1) = g.dropLast := by
      have : (dataRows g).length + 1 = g.length := by
        rw [dataRows_length]
        omega
      rw [this, deleteRowAt_length]
    rw [stripGrid_of_tt hTT]
    simp only [add_transaction, h1, Bool.false_eq_true, if_false, h2, Bool.not_true, h3,
      atTry, rowValuesR, getAllValuesR, deleteRowsR, appendRowR, rcall, rbind, h4,
      hrows, hTT, if_true, hdel]
    rw [utr_run_grid]
    rfl
  · have hTT2 : isTrailingTotal (dataRows g) = false := by
      rwa [Bool.not_eq_true] at hTT
    rw [stripGrid_of_not_tt hTT2]
    simp only [add_transaction, h1, Bool.false_eq_true, if_false, h2, Bool.not_true, h3,
      atTry, rowValuesR, getAllValuesR, deleteRowsR, appendRowR, rcall, rbind, h4,
      hrows, hTT2, Bool.false_eq_true, if_false]
    rw [utr_run_grid]
    rfl

theorem dropLast_eq_nil_of_le {α : Type} {l : List α} (h : l.length ≤ 1) :
    l.dropLast = [] := by
  cases l with
  | nil => rfl
  | cons x xs =>
    cases xs with
    | nil => rfl
    | cons y ys => simp at h

/-! ### Claim theorems -/

/-- C1: the specification claims that after inserting the example
transactions `(2024-01-01, SiteA, rent, 100)` and `(2024-01-02, SiteB,
food, -20)` the closing balances are `100` and `80`.  Running the code on
exactly this scenario, the second transaction row stores `280` in its last
cell (and leaves the `Closing Balance` column cell blank, the closing value
having been written one column past it): the running-balance scan of
`add_transaction` still includes the trailing TOTAL row, and `280 ≠ 100 + (-20)`.
The code contradicts the specification's own example. -/
theorem c1_closing_balance_example_run :
    add_transaction "2024-01-01" "SiteA" "rent" "100" ⟨exG0, none⟩ =
      .ok ("✅ Transaction added: 2024-01-01, SiteA, rent, 100", ⟨exG1, none⟩) ∧
    add_transaction "2024-01-02" "SiteB" "food" "-20" ⟨exG1, none⟩ =
      .ok ("✅ Transaction added: 2024-01-02, SiteB, food, -20", ⟨exG2, none⟩) ∧
    (exG2.getD 2 []).getD 4 blank = Cell.str "" ∧
    (exG2.getD 2 []).getD 5 blank = Cell.num 280 ∧
    (100 : ℚ) + (-20) ≠ 280 := by
  refine ⟨?_, ?_, by decide, by decide, by norm_num⟩
  · rw [at_run_eq "2024-01-01" "SiteA" "rent" "100" 100 exG0 (by decide) (by decide)
      (by decide) (by decide), utrRun_eq]
    simp +decide [stripGrid, dataRows, scannedRows, siteColumns, getAllValues, gridWidth,
      padTo, exG0, exG1, exHeader, exRow1, rowValues, rtrimRow, isTrailingTotal, isTotalRow,
      Cell.upperIsTotal, Cell.isBlank, blank, colSumsE, colSumE, Cell.toF,
      parseFloat, parseUF, parseFin, usOk, usOkAux, pyIsSpace, floatIsSpace, trimFloat, trimChars, splitOnC,
      parseUnsigned, parseMantissa, natOfDigits, allDigits,
      PyF.fin_add_fin, PyF.neg_fin, PyF.zero_eq, PyF.fin_ofNat,
      newTxnRow, scanTotal, rowContrib, totalsRow, claimColSum, List.range',
      cellIdxD, cellIdx, cellEqS, Except.map]
  · rw [at_run_eq "2024-01-02" "SiteB" "food" "-20" (-20) exG1 (by decide) (by decide)
      (by decide) (by decide), utrRun_eq]
    simp +decide [stripGrid, dataRows, scannedRows, siteColumns, getAllValues, gridWidth,
      padTo, exG1, exG2, exHeader, exRow1, exRow2, rowValues, rtrimRow, isTrailingTotal,
      isTotalRow, Cell.upperIsTotal, Cell.isBlank, blank, colSumsE, colSumE, Cell.toF,
      parseFloat, parseUF, parseFin, usOk, usOkAux, pyIsSpace, floatIsSpace, trimFloat, trimChars, splitOnC,
      parseUnsigned, parseMantissa, natOfDigits, allDigits,
      PyF.fin_add_fin, PyF.neg_fin, PyF.zero_eq, PyF.fin_ofNat,
      newTxnRow, scanTotal, rowContrib, totalsRow, claimColSum, List.range',
      cellIdxD, cellIdx, cellEqS, Except.map]
    norm_num

/-- C2 counterexample: on the sheet `exG1`, whose last row is a TOTAL row,
the running-balance scan of `add_transaction` (the double loop over
`get_all_values()[1:]`, which is `scanTotal` over those very rows) yields
`300`, while the same scan restricted to the true transaction rows yields
`100`: the TOTAL row is *not* excluded from the scan, and the written
closing value is `300 + (-20)`. -/
theorem c2_total_row_not_excluded_counterexample :
    isTrailingTotal ((getAllValues exG1).drop 1) = true ∧
    scanTotal 5 ((getAllValues exG1).drop 1) = 300 ∧
    scanTotal 5 (((getAllValues exG1).drop 1).dropLast) = 100 ∧
    add_transaction "2024-01-02" "SiteB" "food" "-20" ⟨exG1, none⟩ =
      .ok ("✅ Transaction added: 2024-01-02, SiteB, food, -20", ⟨exG2, none⟩) ∧
    (exG2.getD 2 []).getD 5 blank = Cell.num (300 + (-20)) ∧
    (300 : ℚ) ≠ 100 := by
  refine ⟨by decide, ?_, ?_, ?_, ?_, by norm_num⟩
  · simp +decide [scanTotal, rowContrib, getAllValues, gridWidth, padTo, exG1, exHeader,
      exRow1, Cell.toF, parseFloat, parseUF, parseFin, usOk, usOkAux, pyIsSpace, floatIsSpace, trimFloat, trimChars,
      splitOnC, parseUnsigned, parseMantissa, natOfDigits, allDigits,
      PyF.fin_add_fin, PyF.neg_fin, PyF.zero_eq, PyF.fin_ofNat, blank, List.range']
    norm_num
  · simp +decide [scanTotal, rowContrib, getAllValues, gridWidth, padTo, exG1, exHeader,
      exRow1, Cell.toF, parseFloat, parseUF, parseFin, usOk, usOkAux, pyIsSpace, floatIsSpace, trimFloat, trimChars,
      splitOnC, parseUnsigned, parseMantissa, natOfDigits, allDigits,
      PyF.fin_add_fin, PyF.neg_fin, PyF.zero_eq, PyF.fin_ofNat, blank, List.range']
  · rw [at_run_eq "2024-01-02" "SiteB" "food" "-20" (-20) exG1 (by decide) (by decide)
      (by decide) (by decide), utrRun_eq]
    simp +decide [stripGrid, dataRows, scannedRows, siteColumns, getAllValues, gridWidth,
      padTo, exG1, exG2, exHeader, exRow1, exRow2, rowValues, rtrimRow, isTrailingTotal,
      isTotalRow, Cell.upperIsTotal, Cell.isBlank, blank, colSumsE, colSumE, Cell.toF,
      parseFloat, parseUF, parseFin, usOk, usOkAux, pyIsSpace, floatIsSpace, trimFloat, trimChars, splitOnC,
      parseUnsigned, parseMantissa, natOfDigits, allDigits,
      PyF.fin_add_fin, PyF.neg_fin, PyF.zero_eq, PyF.fin_ofNat,
      newTxnRow, scanTotal, rowContrib, totalsRow, claimColSum, List.range',
      cellIdxD, cellIdx, cellEqS, Except.map]
    norm_num
  · simp +decide [exG2, exHeader, exRow1, exRow2, blank,
      PyF.fin_add_fin, PyF.neg_fin, PyF.zero_eq, PyF.fin_ofNat]
    norm_num

/-- C2 amended: the trailing TOTAL row is deleted only *after* the
running-balance scan, so it does contribute: on every sheet whose last data
row is a TOTAL row, the computed balance decomposes as the contribution of
the true transaction rows plus the contribution of the TOTAL row itself. -/
theorem c2_amended_scan_includes_total_row (ci : Nat) (rows : List (List Cell))
    (h1 : rows ≠ []) (h2 : isTrailingTotal rows = true) :
    scanTotal ci rows = scanTotal ci rows.dropLast + rowContrib ci (rows.getLast h1) := by
  conv_lhs => rw [← List.dropLast_append_getLast h1]
  rw [scanTotal_concat]

/-- Witness for C2 amended at the concrete sheet `exG1`. -/
theorem c2_amended_scan_includes_total_row_witness :
    scanTotal 5 ((getAllValues exG1).drop 1) =
      scanTotal 5 (((getAllValues exG1).drop 1).dropLast) +
        rowContrib 5 (((getAllValues exG1).drop 1).getLast (by decide)) :=
  c2_amended_scan_includes_total_row 5 _ (by decide) (by decide)

/-- C3 counterexample: on the sheet `exG3`, whose transaction row holds the
non-numeric text `"abc"` in the `SiteA` column, `update_total_row` does
*not* treat the cell as zero: the `float` conversion raises, the error is
caught by the outer handler, and no TOTAL row is appended - the sheet is
left entirely unchanged, with zero TOTAL rows. -/
theorem c3_nonnumeric_counterexample :
    update_total_row ⟨exG3, none⟩ = .ok ((), ⟨exG3, none⟩) ∧
    countTotalRows exG3 = 0 ∧
    (exG3.getD 1 []).getD 2 blank = Cell.str "abc" ∧
    Cell.toF (Cell.str "abc") = none := by
  refine ⟨rfl, rfl, rfl, rfl⟩

/-- C3 amended: blank cells are silently summed as zero (first conjunct:
whenever every scanned cell is blank or numeric, the column sum succeeds
with blanks contributing zero), but a non-blank, non-numeric cell in a
scanned site column makes the recomputation abort: the `ValueError` is
caught, and the operation terminates having only performed the TOTAL-row
strip - no TOTAL row is appended (second conjunct). -/
theorem c3_amended_blank_zero_nonnumeric_aborts :
    (∀ (col : Nat) (rows : List (List Cell)),
      (∀ r ∈ rows, ((r : List Cell).getD col blank).isBlank = true ∨
        ((r.getD col blank).toF).isSome = true) →
      colSumE col rows = .ok (claimColSum col rows)) ∧
    (∀ g : List (List Cell),
      (∃ c ∈ siteColumns g, ∃ r ∈ scannedRows g,
        (r.getD c blank).isBlank = false ∧ (r.getD c blank).toF = none) →
      update_total_row ⟨g, none⟩ = .ok ((), ⟨stripGrid g, none⟩)) := by
  constructor
  · exact colSumE_ok_of_clean
  · intro g hbad
    rcases colSumsE_error_of_bad _ _ hbad with ⟨e, he⟩
    rw [utr_run_eq, he]

/-- Witness for C3 amended: the blank-tolerant sum on the data rows of
`exG1`, and the aborting recomputation on `exG3`. -/
theorem c3_amended_blank_zero_nonnumeric_aborts_witness :
    colSumE 3 ((getAllValues exG1).drop 1) =
      .ok (claimColSum 3 ((getAllValues exG1).drop 1)) ∧
    update_total_row ⟨exG3, none⟩ = .ok ((), ⟨stripGrid exG3, none⟩) := by
  constructor
  · exact c3_amended_blank_zero_nonnumeric_aborts.1 3 _ (by decide)
  · exact c3_amended_blank_zero_nonnumeric_aborts.2 exG3 (by decide)

/-- C7: adding a site whose stripped name already appears verbatim in the
header row leaves the state (in particular the whole sheet) unchanged,
reports the duplicate-site failure, and returns the current site list -
the header cells strictly between column 2 and the last column. -/
theorem c7_duplicate_site_leaves_sheet_unchanged (new_site : String) (g : List (List Cell))
    (h1 : (pyStrip new_site == "") = false)
    (h2 : cellMem (rowValues g 1) (pyStrip new_site) = true) :
    add_site new_site ⟨g, none⟩ =
      .ok (("⚠️ Site already exists", some (((rowValues g 1).drop 2).dropLast)),
        ⟨g, none⟩) := by
  simp only [add_site, h1, Bool.false_eq_true, if_false, rowValuesR, rcall, rbind, h2,
    if_true]
  by_cases hlen : 4 ≤ (rowValues g 1).length
  · simp [hlen]
  · have hsmall : ((rowValues g 1).drop 2).dropLast = [] := by
      apply dropLast_eq_nil_of_le
      simp only [List.length_drop]
      omega
    simp [hlen, hsmall]

/-- Witness for C7 on the concrete sheet `exG0` and the existing site
`SiteA`. -/
theorem c7_duplicate_site_leaves_sheet_unchanged_witness :
    add_site "SiteA" ⟨exG0, none⟩ =
      .ok (("⚠️ Site already exists", some (((rowValues exG0 1).drop 2).dropLast)),
        ⟨exG0, none⟩) :=
  c7_duplicate_site_leaves_sheet_unchanged "SiteA" exG0 (by decide) (by decide)

/-- C9: each validation failure of `add_transaction` (placeholder or empty
site, unparseable date, unparseable amount, in this order) returns its
failure message with the state - grid and fault schedule alike - completely
untouched: no remote call of any kind has been made. -/
theorem c9_validation_failures_side_effect_free
    (date site description amount_text : String) (st : St) :
    ((pyStrip site == "Select Site" || pyStrip site == "") = true →
      add_transaction date site description amount_text st =
        .ok ("⚠️ Please select a valid site", st)) ∧
    ((pyStrip site == "Select Site" || pyStrip site == "") = false →
      parseDate (pyStrip date) = false →
      add_transaction date site description amount_text st =
        .ok ("⚠️ Invalid date format", st)) ∧
    ((pyStrip site == "Select Site" || pyStrip site == "") = false →
      parseDate (pyStrip date) = true →
      parseFloat (pyStrip amount_text) = none →
      add_transaction date site description amount_text st =
        .ok ("⚠️ Amount must be a number", st)) := by
  refine ⟨?_, ?_, ?_⟩
  · intro h
    simp only [add_transaction, h]
    rfl
  · intro h hd
    simp only [add_transaction, h, Bool.false_eq_true, if_false, hd, Bool.not_false]
    rfl
  · intro h hd ha
    simp only [add_transaction, h, Bool.false_eq_true, if_false, hd, Bool.not_true, ha]

/-- Witness for C9: the specification's invalid date `"2024-13-01"`, an
empty site, and a non-numeric amount, each rejected with the sheet `exG0`
untouched. -/
theorem c9_validation_failures_side_effect_free_witness :
    add_transaction "2024-13-01" "SiteA" "rent" "100" ⟨exG0, none⟩ =
      .ok ("⚠️ Invalid date format", ⟨exG0, none⟩) ∧
    add_transaction "2024-01-01" "" "rent" "100" ⟨exG0, none⟩ =
      .ok ("⚠️ Please select a valid site", ⟨exG0, none⟩) ∧
    add_transaction "2024-01-01" "SiteA" "rent" "12a" ⟨exG0, none⟩ =
      .ok ("⚠️ Amount must be a number", ⟨exG0, none⟩) := by
  refine ⟨?_, ?_, ?_⟩
  · exact (c9_validation_failures_side_effect_free "2024-13-01" "SiteA" "rent" "100"
      ⟨exG0, none⟩).2.1 (by decide) (by decide)
  · exact (c9_validation_failures_side_effect_free "2024-01-01" "" "rent" "100"
      ⟨exG0, none⟩).1 (by decide)
  · exact (c9_validation_failures_side_effect_free "2024-01-01" "SiteA" "rent" "12a"
      ⟨exG0, none⟩).2.2 (by decide) (by decide) (by decide)

/-- C5: a successful, fault-free total recomputation (every scanned cell of
every remaining row is blank or numeric) appends, after the TOTAL-row
strip, exactly the row `["TOTAL", "", sum_1, ..., sum_k, grand_total]`:
for each site column the per-column sum of the scanned transaction rows
with blanks counted as zero, and in the closing-balance position the sum of
those per-site sums. -/
theorem c5_total_row_sums (g : List (List Cell))
    (h : ∀ c ∈ siteColumns g, ∀ r ∈ scannedRows g,
      (r.getD c blank).isBlank = true ∨ ((r.getD c blank).toF).isSome = true) :
    update_total_row ⟨g, none⟩ =
      .ok ((), ⟨stripGrid g ++
        [Cell.str "TOTAL" :: Cell.str "" ::
          ((siteColumns g).map (fun c => Cell.num (claimColSum c (scannedRows g))) ++
            [Cell.num (((siteColumns g).map (fun c => claimColSum c (scannedRows g))).sum)])],
        none⟩) := by
  rw [utr_run_eq, colSumsE_ok_of_clean _ _ h]
  simp only [totalsRow, List.map_map]
  rfl

/-- Witness for C5 at the concrete sheet `exG1` (one transaction of 100 on
`SiteA`, a trailing TOTAL row to be recomputed). -/
theorem c5_total_row_sums_witness :
    update_total_row ⟨exG1, none⟩ =
      .ok ((), ⟨stripGrid exG1 ++
        [Cell.str "TOTAL" :: Cell.str "" ::
          ((siteColumns exG1).map (fun c => Cell.num (claimColSum c (scannedRows exG1))) ++
            [Cell.num (((siteColumns exG1).map
              (fun c => claimColSum c (scannedRows exG1))).sum)])],
        none⟩) :=
  c5_total_row_sums exG1 (by decide)

theorem handler_string_ok (x : R String) (pre : String) :
    rIsOk (match x with
           | .ok y => (.ok y : R String)
           | .error (e, st2) => .ok (pre ++ e.msg, st2)) = true := by
  cases x with
  | ok y => rfl
  | error e => rcases e with ⟨e, st2⟩; rfl

theorem handler_site_ok (x : R (String × Option (List Cell))) :
    rIsOk (match x with
           | .ok y => (.ok y : R (String × Option (List Cell)))
           | .error (.valueError m, st2) =>
             .ok (("❌ 'Closing Balance' column not found", none), st2)
           | .error (.remote m, st2) =>
             .ok (("❌ Failed to add site: " ++ m, none), st2)) = true := by
  cases x with
  | ok y => rfl
  | error e =>
    rcases e with ⟨e, st2⟩
    cases e with
    | valueError m => rfl
    | remote m => rfl

/-- C8 amended: for the header initializer, the total recomputer and the
transaction adder, every raised error - including every scheduled
remote-access failure - is caught inside the operation, which always
returns normally.  For the site adder the same holds for every remote call
*inside* its `try` block, i.e. whenever the fault does not hit its very
first remote call - the initial `row_values(1)` header read at line 42 of
the source, which sits *outside* the `try` and whose failure escapes the
operation (see the counterexample). -/
theorem c8_errors_caught_except_add_site_header_read :
    (∀ st : St, rIsOk (ensure_header st) = true) ∧
    (∀ st : St, rIsOk (update_total_row st) = true) ∧
    (∀ (date site description amount_text : String) (st : St),
      rIsOk (add_transaction date site description amount_text st) = true) ∧
    (∀ (new_site : String) (st : St),
      (pyStrip new_site == "") = true ∨ st.fault ≠ some 0 →
      rIsOk (add_site new_site st) = true) := by
  refine ⟨?_, ?_, ?_, ?_⟩
  · intro st
    unfold ensure_header
    cases h : ehBody st with
    | ok x => rfl
    | error e => rcases e with ⟨e, st2⟩; rfl
  · intro st
    unfold update_total_row
    cases h : utrBody st with
    | ok x => rfl
    | error e => rcases e with ⟨e, st2⟩; rfl
  · intro d s de a st
    unfold add_transaction
    by_cases h1 : (pyStrip s == "Select Site" || pyStrip s == "") = true
    · rw [if_pos h1]; rfl
    · rw [if_neg h1]
      by_cases h2 : (!parseDate (pyStrip d)) = true
      · rw [if_pos h2]; rfl
      · rw [if_neg h2]
        cases hpf : parseFloat (pyStrip a) with
        | none => rfl
        | some q =>
          exact handler_string_ok (atTry (pyStrip d) (pyStrip s) (pyStrip de) q st)
                  "❌ Failed to add transaction: "
  · intro ns st h
    unfold add_site
    by_cases he : (pyStrip ns == "") = true
    · rw [if_pos he]; rfl
    · rw [if_neg he]
      have hf : st.fault ≠ some 0 := h.resolve_left he
      cases hfa : st.fault with
      | none =>
        simp only [rowValuesR, rcall, hfa, rbind]
        by_cases hm : cellMem (rowValues st.grid 1) (pyStrip ns) = true
        · rw [if_pos hm]; rfl
        · rw [if_neg hm]
          exact handler_site_ok (asTry (pyStrip ns) (rowValues st.grid 1) st)
      | some k =>
        cases k with
        | zero => exact absurd hfa hf
        | succ k2 =>
          simp only [rowValuesR, rcall, hfa, rbind]
          by_cases hm : cellMem (rowValues st.grid 1) (pyStrip ns) = true
          · rw [if_pos hm]; rfl
          · rw [if_neg hm]
            exact handler_site_ok (asTry (pyStrip ns) (rowValues st.grid 1)
              { st with fault := some k2 })

/-- Witnesses for C8 amended: each operation returning normally under a
scheduled remote fault (the site adder with a fault on its second remote
call, which its `try` block catches). -/
theorem c8_errors_caught_witness :
    rIsOk (ensure_header ⟨exG0, some 0⟩) = true ∧
    rIsOk (update_total_row ⟨exG1, some 1⟩) = true ∧
    rIsOk (add_transaction "2024-01-01" "SiteA" "rent" "100" ⟨exG0, some 0⟩) = true ∧
    rIsOk (add_site "Cafe" ⟨exG0, some 1⟩) = true := by
  refine ⟨?_, ?_, ?_, ?_⟩
  · exact c8_errors_caught_except_add_site_header_read.1 ⟨exG0, some 0⟩
  · exact c8_errors_caught_except_add_site_header_read.2.1 ⟨exG1, some 1⟩
  · exact c8_errors_caught_except_add_site_header_read.2.2.1 "2024-01-01" "SiteA" "rent"
      "100" ⟨exG0, some 0⟩
  · exact c8_errors_caught_except_add_site_header_read.2.2.2 "Cafe" ⟨exG0, some 1⟩
      (Or.inr (by decide))

/-- C8 counterexample: a remote failure on the site adder's initial header
read (`SHEET.row_values(1)`, the one remote call outside its `try` block)
escapes `add_site` as an uncaught exception, so not every remote-access
failure is converted into a user-facing message. -/
theorem c8_add_site_header_read_escapes_counterexample :
    add_site "NewSite" ⟨exG0, some 0⟩ =
      .error (.remote "RemoteAccessError", ⟨exG0, some 0⟩) ∧
    rIsOk (add_site "NewSite" ⟨exG0, some 0⟩) = false := by
  exact ⟨rfl, rfl⟩

/-! ### Dates are never the TOTAL marker -/

theorem splitOnC_no_sep (sep : Char) (l : List Char) (h : ∀ c ∈ l, (c == sep) = false) :
    splitOnC sep l = [l] := by
  induction l with
  | nil => rfl
  | cons c cs ih =>
    unfold splitOnC
    simp only [h c (by simp), Bool.false_eq_true, if_false,
      ih (fun x hx => h x (by simp [hx]))]

theorem upperIsTotal_str_eq {s : String} (h : Cell.upperIsTotal (Cell.str s) = true) :
    s.data.map Char.toUpper = [ 'T', 'O', 'T', 'A', 'L' ] := by
  simpa [Cell.upperIsTotal] using h

theorem no_dash_of_upper_total {s : String}
    (h : s.data.map Char.toUpper = [ 'T', 'O', 'T', 'A', 'L' ]) :
    ∀ c ∈ s.data, (c == '-') = false := by
  intro c hc
  have hmem : Char.toUpper c ∈ ([ 'T', 'O', 'T', 'A', 'L' ] : List Char) := by
    rw [← h]
    exact List.mem_map_of_mem _ hc
  rcases Bool.eq_false_or_eq_true (c == '-') with hb | hb
  · exfalso
    have hcd : c = '-' := eq_of_beq hb
    subst hcd
    exact absurd hmem (by decide)
  · exact hb

theorem parseDate_not_total {s : String} (h : parseDate s = true) :
    Cell.upperIsTotal (Cell.str s) = false := by
  rcases Bool.eq_false_or_eq_true (Cell.upperIsTotal (Cell.str s)) with hb | hb
  case inr => exact hb
  · exfalso
    have hsplit := splitOnC_no_sep '-' s.data (no_dash_of_upper_total (upperIsTotal_str_eq hb))
    unfold parseDate at h
    rw [hsplit] at h
    exact Bool.false_ne_true h

/-! ### Lookup of the first occurrence of a header name -/

theorem cellIdx_mem {l : List Cell} {t : String} {j : Nat} (h : cellIdx l t = some j) :
    cellMem l t = true := by
  induction l generalizing j with
  | nil => cases h
  | cons c cs ih =>
    unfold cellIdx at h
    by_cases hc : cellEqS c t = true
    · simp [cellMem, hc]
    · rw [if_neg hc] at h
      rcases Option.map_eq_some'.mp h with ⟨j2, hj2, _⟩
      have := ih hj2
      simp [cellMem, List.any_cons] at this ⊢
      exact Or.inr this

theorem cellIdx_lt_length {l : List Cell} {t : String} {j : Nat} (h : cellIdx l t = some j) :
    j < l.length := by
  induction l generalizing j with
  | nil => cases h
  | cons c cs ih =>
    unfold cellIdx at h
    by_cases hc : cellEqS c t = true
    · rw [if_pos hc] at h
      cases h
      simp
    · rw [if_neg hc] at h
      rcases Option.map_eq_some'.mp h with ⟨j2, hj2, hj⟩
      subst hj
      have := ih hj2
      simp
      omega

theorem cellIdx_getD {l : List Cell} {t : String} {j : Nat} (h : cellIdx l t = some j) :
    l.getD j blank = Cell.str t := by
  induction l generalizing j with
  | nil => cases h
  | cons c cs ih =>
    unfold cellIdx at h
    by_cases hc : cellEqS c t = true
    · rw [if_pos hc] at h
      cases h
      cases c with
      | str s =>
        have : s = t := by simpa [cellEqS] using hc
        subst this
        rfl
      | num q => simp [cellEqS] at hc
    · rw [if_neg hc] at h
      rcases Option.map_eq_some'.mp h with ⟨j2, hj2, hj⟩
      subst hj
      rw [List.getD_cons_succ]
      exact ih hj2

theorem cellIdxD_of_cellIdx {l : List Cell} {t : String} {j : Nat}
    (h : cellIdx l t = some j) : cellIdxD l t = j := by
  unfold cellIdxD
  rw [h]
  rfl

/-! ### Cells of the freshly written transaction row -/

theorem getD_set_self (l : List Cell) (i : Nat) (a : Cell) (h : i < l.length) :
    (l.set i a).getD i blank = a := by
  rw [List.getD_eq_getElem?_getD, List.getElem?_set]
  simp [h]

theorem getD_set_ne (l : List Cell) {i j : Nat} (a : Cell) (h : i ≠ j) :
    (l.set i a).getD j blank = l.getD j blank := by
  rw [List.getD_eq_getElem?_getD, List.getElem?_set, if_neg h, ← List.getD_eq_getElem?_getD]

theorem newTxnRow_base_getD (d de : String) (ci : Nat) (tc : PyF) (col : Nat)
    (h2 : 2 ≤ col) (hci : col < ci) :
    ((Cell.str d :: Cell.str de ::
      (List.replicate (ci - 2) blank ++ [Cell.num tc])) : List Cell).getD col blank =
      blank := by
  obtain ⟨j, rfl⟩ : ∃ j, col = j + 1 + 1 := ⟨col - 2, by omega⟩
  simp only [List.getD_cons_succ]
  rw [List.getD_append _ _ _ _ (by simp only [List.length_replicate]; omega),
    getD_replicate_blank]

theorem newTxnRow_base_length (d de : String) (ci : Nat) (tc : PyF) :
    ((Cell.str d :: Cell.str de ::
      (List.replicate (ci - 2) blank ++ [Cell.num tc])) : List Cell).length =
      ci - 2 + 3 := by
  simp [List.length_replicate]

theorem isTotalRow_newTxnRow (d de : String) (ci sci : Nat) (q tc : PyF)
    (hd : parseDate d = true) :
    isTotalRow (newTxnRow d de ci sci q tc) = false := by
  unfold newTxnRow isTotalRow
  cases hsci : sci - 1 with
  | zero => simp [List.set, Cell.upperIsTotal]
  | succ j =>
    simp only [List.set, List.getD_cons_zero]
    exact parseDate_not_total hd

theorem newTxnRow_clean (d de : String) (ci sci : Nat) (q tc : PyF) (col : Nat)
    (h2 : 2 ≤ col) (hci : col < ci) :
    ((newTxnRow d de ci sci q tc).getD col blank).isBlank = true ∨
      (((newTxnRow d de ci sci q tc).getD col blank).toF).isSome = true := by
  unfold newTxnRow
  by_cases hcol : sci - 1 = col
  · rw [hcol, getD_set_self _ _ _ (by rw [newTxnRow_base_length]; omega)]
    right
    rfl
  · rw [getD_set_ne _ _ hcol, newTxnRow_base_getD d de ci tc col h2 hci]
    left
    rfl

theorem newTxnRow_getD_site (d de : String) (ci sci : Nat) (q tc : PyF)
    (h : sci - 1 < ci - 2 + 3) :
    (newTxnRow d de ci sci q tc).getD (sci - 1) blank = Cell.num q := by
  unfold newTxnRow
  rw [getD_set_self _ _ _ (by rw [newTxnRow_base_length]; omega)]

/-! ### The stripped grid -/

theorem two_le_length_of_tt {g : List (List Cell)}
    (hTT : isTrailingTotal (dataRows g) = true) : 2 ≤ g.length := by
  have hne := isTrailingTotal_ne_nil hTT
  have := List.length_pos.mpr hne
  rw [dataRows_length] at this
  omega

theorem stripGrid_ne_nil {g : List (List Cell)} (hg : g ≠ []) : stripGrid g ≠ [] := by
  unfold stripGrid
  by_cases hTT : isTrailingTotal (dataRows g) = true
  · rw [if_pos hTT]
    have h2 := two_le_length_of_tt hTT
    rw [← List.length_pos, List.length_dropLast]
    omega
  · rw [if_neg hTT]
    exact hg

theorem stripGrid_head {g : List (List Cell)} (hg : g ≠ []) :
    (stripGrid g).getD 0 [] = g.getD 0 [] := by
  unfold stripGrid
  by_cases hTT : isTrailingTotal (dataRows g) = true
  · rw [if_pos hTT]
    have h2 := two_le_length_of_tt hTT
    rw [List.getD_eq_getElem?_getD, List.getD_eq_getElem?_getD, List.dropLast_eq_take,
      List.getElem?_take, if_pos (by omega)]
  · rw [if_neg hTT]

theorem mem_drop_one_stripGrid {g : List (List Cell)} {r : List Cell}
    (h : r ∈ (stripGrid g).drop 1) : r ∈ g.drop 1 := by
  unfold stripGrid at h
  by_cases hTT : isTrailingTotal (dataRows g) = true
  · rw [if_pos hTT, List.dropLast_eq_take, List.drop_take] at h
    exact List.take_subset _ _ h
  · rw [if_neg hTT] at h
    exact h

theorem isTrailingTotal_dataRows_concat {l : List (List Cell)} (hl : l ≠ [])
    (nr : List Cell) :
    isTrailingTotal (dataRows (l ++ [nr])) = isTotalRow nr := by
  rw [dataRows_eq, isTrailingTotal_map_padTo, List.drop_append_eq_append_drop]
  have h0 : 1 - l.length = 0 := by
    have := List.length_pos.mpr hl
    omega
  rw [h0, List.drop_zero]
  unfold isTrailingTotal
  rw [List.getLast?_concat]

theorem countTotalRows_concat_total (l : List (List Cell)) (t : List Cell)
    (ht : isTotalRow t = true) (h0 : countTotalRows l = 0) :
    countTotalRows (l ++ [t]) = 1 := by
  unfold countTotalRows at h0 ⊢
  rw [List.countP_append, h0, List.countP_cons]
  simp [ht]

theorem countTotalRows_concat_nontotal (l : List (List Cell)) (t : List Cell)
    (ht : isTotalRow t = false) (h0 : countTotalRows l = 0) :
    countTotalRows (l ++ [t]) = 0 := by
  unfold countTotalRows at h0 ⊢
  rw [List.countP_append, h0, List.countP_cons]
  simp [ht]

theorem lastIsTotal_concat (l : List (List Cell)) (t : List Cell)
    (ht : isTotalRow t = true) : lastIsTotal (l ++ [t]) = true := by
  unfold lastIsTotal
  rw [List.getLast?_concat]
  exact ht

/-! ### Row trimming and column insertion -/

theorem rtrimRow_concat_nonblank (l : List Cell) (a : Cell) (ha : a.isBlank = false) :
    rtrimRow (l ++ [a]) = l ++ [a] := by
  induction l with
  | nil => simp [rtrimRow, ha]
  | cons c cs ih =>
    show rtrimRow (c :: (cs ++ [a])) = c :: (cs ++ [a])
    unfold rtrimRow
    rw [ih]
    cases hcs : cs ++ [a] with
    | nil => exact absurd hcs (by simp)
    | cons x xs => rfl

theorem rtrimRow_concat_blank_length (l : List Cell) (a : Cell) (ha : a.isBlank = true) :
    (rtrimRow (l ++ [a])).length ≤ l.length := by
  induction l with
  | nil => simp [rtrimRow, ha]
  | cons c cs ih =>
    show (rtrimRow (c :: (cs ++ [a]))).length ≤ cs.length + 1
    unfold rtrimRow
    cases hcs : rtrimRow (cs ++ [a]) with
    | nil =>
      by_cases hc : c.isBlank = true
      · simp [hc]
      · have : c.isBlank = false := by rwa [Bool.not_eq_true] at hc
        simp [this]
    | cons x xs =>
      have := ih
      rw [hcs] at this
      simp only [List.length_cons] at this ⊢
      omega

theorem rtrim_stable_last_nonblank {l : List Cell} (hl : rtrimRow l = l) (hne : l ≠ []) :
    ((l.getLast hne).isBlank) = false := by
  rcases Bool.eq_false_or_eq_true ((l.getLast hne).isBlank) with hb | hb
  · exfalso
    have hdecomp := List.dropLast_append_getLast hne
    have hlen : (rtrimRow (l.dropLast ++ [l.getLast hne])).length ≤ l.dropLast.length :=
      rtrimRow_concat_blank_length _ _ hb
    rw [hdecomp, hl, List.length_dropLast] at hlen
    have := List.length_pos.mpr hne
    omega
  · exact hb

theorem rtrimRow_eq_self_of_last {l : List Cell} {a : Cell} (h : l.getLast? = some a)
    (ha : a.isBlank = false) : rtrimRow l = l := by
  have hne : l ≠ [] := by
    intro he
    subst he
    cases h
  have hlast : l.getLast hne = a := by
    rw [List.getLast?_eq_getLast l hne] at h
    exact Option.some.inj h
  calc rtrimRow l = rtrimRow (l.dropLast ++ [l.getLast hne]) := by
        rw [List.dropLast_append_getLast hne]
    _ = l.dropLast ++ [l.getLast hne] :=
        rtrimRow_concat_nonblank _ _ (by rw [hlast]; exact ha)
    _ = l := List.dropLast_append_getLast hne

theorem getLast?_drop {l : List Cell} {n : Nat} (h : n < l.length) :
    (l.drop n).getLast? = l.getLast? := by
  conv_rhs => rw [← List.take_append_drop n l]
  rw [List.getLast?_append]
  have hd : l.drop n ≠ [] := by
    rw [← List.length_pos, List.length_drop]
    omega
  cases hlast : (l.drop n).getLast? with
  | none => exact absurd (List.getLast?_eq_none_iff.mp hlast) hd
  | some x => rfl

theorem insAt_getD_lt {l : List Cell} {i jj : Nat} (x : Cell) (hj : jj < i)
    (hi : i ≤ l.length) :
    (insAt i x l).getD jj blank = l.getD jj blank := by
  unfold insAt
  rw [List.getD_append _ _ _ _ (by simp only [List.length_take]; omega),
    List.getD_eq_getElem?_getD, List.getElem?_take, if_pos hj, ← List.getD_eq_getElem?_getD]

theorem insAt_getD_self {l : List Cell} {i : Nat} (x : Cell) (hi : i ≤ l.length) :
    (insAt i x l).getD i blank = x := by
  unfold insAt
  rw [List.getD_append_right _ _ _ _ (by simp only [List.length_take]; omega)]
  have h0 : i - (l.take i).length = 0 := by
    simp only [List.length_take]
    omega
  rw [h0, List.getD_cons_zero]

theorem insAt_getD_succ {l : List Cell} {i jj : Nat} (x : Cell) (hij : i ≤ jj)
    (hi : i ≤ l.length) :
    (insAt i x l).getD (jj + 1) blank = l.getD jj blank := by
  unfold insAt
  rw [List.getD_append_right _ _ _ _ (by simp only [List.length_take]; omega)]
  have h1 : jj + 1 - (l.take i).length = (jj - i) + 1 := by
    simp only [List.length_take]
    omega
  rw [h1, List.getD_cons_succ, List.getD_eq_getElem?_getD, List.getElem?_drop,
    ← List.getD_eq_getElem?_getD]
  congr 1
  omega

theorem insAt_getLast? {l : List Cell} {i : Nat} (x : Cell) (hi : i < l.length) :
    (insAt i x l).getLast? = l.getLast? := by
  unfold insAt
  rw [List.getLast?_append]
  have hd : l.drop i ≠ [] := by
    rw [← List.length_pos, List.length_drop]
    omega
  have h2 : (x :: l.drop i).getLast? = (l.drop i).getLast? := by
    cases hdl : l.drop i with
    | nil => exact absurd hdl hd
    | cons y ys => rw [List.getLast?_cons_cons]
  rw [h2, getLast?_drop hi]
  cases hl2 : l.getLast? with
  | none =>
    exact absurd (List.getLast?_eq_none_iff.mp hl2) (by
      intro he
      rw [he] at hi
      simp at hi)
  | some z => rfl

theorem padTo_length (w : Nat) (r : List Cell) : (padTo w r).length = max w r.length := by
  simp only [padTo, List.length_append, List.length_replicate]
  omega

theorem insCol_length (ci : Nat) (vals : List Cell) :
    ∀ (l : List (List Cell)) (i0 : Nat), (insCol i0 ci vals l).length = l.length := by
  intro l
  induction l with
  | nil => intro i0; rfl
  | cons r rs ih =>
    intro i0
    simp only [insCol, List.length_cons, ih]

theorem insCol_getD (ci : Nat) (vals : List Cell) :
    ∀ (l : List (List Cell)) (i0 i : Nat),
      (insCol i0 ci vals l).getD i [] =
        if i < l.length then
          insAt (ci - 1) (vals.getD (i0 + i) blank) (padTo (ci - 1) (l.getD i []))
        else [] := by
  intro l
  induction l with
  | nil => intro i0 i; simp [insCol]
  | cons r rs ih =>
    intro i0 i
    cases i with
    | zero => simp [insCol]
    | succ i2 =>
      simp only [insCol, List.getD_cons_succ, List.length_cons]
      rw [ih (i0 + 1) i2]
      have he : i0 + 1 + i2 = i0 + (i2 + 1) := by omega
      rw [he]
      by_cases hlt : i2 < rs.length
      · rw [if_pos hlt, if_pos (by omega)]
      · rw [if_neg hlt, if_neg (by omega)]

/-- C4 corrected: starting from a sheet whose only TOTAL row (if any) is the
trailing one (`countTotalRows (stripGrid g) = 0` says: after stripping a
trailing TOTAL row no TOTAL-marked row remains, in particular the header is
not TOTAL-marked), a fault-free transaction insertion with valid inputs and
a known site, *provided additionally that every site-column cell of every
data row is blank or numeric*, leaves exactly one TOTAL row in the sheet,
and it is the last row.  Without the added numeric-cells condition the
claim is false: see the counterexample, where the total recomputer aborts
on a non-numeric cell and the sheet ends with no TOTAL row at all. -/
theorem c4_exactly_one_trailing_total_row (date site description amount_text : String)
    (q : PyF) (g : List (List Cell))
    (h1 : (pyStrip site == "Select Site" || pyStrip site == "") = false)
    (h2 : parseDate (pyStrip date) = true)
    (h3 : parseFloat (pyStrip amount_text) = some q)
    (h4 : cellMem (rowValues g 1) (pyStrip site) = true)
    (h5 : countTotalRows (stripGrid g) = 0)
    (h6 : ∀ c ∈ siteColumns g, ∀ r ∈ g.drop 1,
      ((r.getD c blank).isBlank = true ∨ ((r.getD c blank).toF).isSome = true)) :
    ∃ gf, add_transaction date site description amount_text ⟨g, none⟩ =
        .ok ("✅ Transaction added: " ++ pyStrip date ++ ", " ++ pyStrip site ++ ", "
              ++ pyStrip description ++ ", " ++ toString q, ⟨gf, none⟩) ∧
      countTotalRows gf = 1 ∧ lastIsTotal gf = true := by
  have hg : g ≠ [] := by
    intro he
    subst he
    exact Bool.false_ne_true h4
  have hrun := at_run_eq date site description amount_text q g h1 h2 h3 h4
  generalize hnr : newTxnRow (pyStrip date) (pyStrip description) (rowValues g 1).length
      (cellIdxD (rowValues g 1) (pyStrip site) + 1) q
      (scanTotal (rowValues g 1).length (dataRows g) + q) = nr at hrun
  have hnrTotal : isTotalRow nr = false := by
    rw [← hnr]
    exact isTotalRow_newTxnRow _ _ _ _ _ _ h2
  have hnrClean : ∀ c, 2 ≤ c → c < (rowValues g 1).length →
      ((nr.getD c blank).isBlank = true ∨ ((nr.getD c blank).toF).isSome = true) := by
    intro c hc2 hcl
    rw [← hnr]
    exact newTxnRow_clean _ _ _ _ _ _ c hc2 hcl
  have hstr : stripGrid g ≠ [] := stripGrid_ne_nil hg
  have hrv1 : rowValues (stripGrid g ++ [nr]) 1 = rowValues g 1 := by
    unfold rowValues
    rw [List.getD_append _ _ _ _ (List.length_pos.mpr hstr), stripGrid_head hg]
  have hTT1 : isTrailingTotal (dataRows (stripGrid g ++ [nr])) = false := by
    rw [isTrailingTotal_dataRows_concat hstr, hnrTotal]
  have hclean1 : ∀ c ∈ siteColumns (stripGrid g ++ [nr]),
      ∀ r ∈ scannedRows (stripGrid g ++ [nr]),
      ((r.getD c blank).isBlank = true ∨ ((r.getD c blank).toF).isSome = true) := by
    intro c hc r hr
    unfold siteColumns at hc
    rw [hrv1] at hc
    have hc2 := List.mem_range'_1.mp hc
    simp only [scannedRows, hTT1, Bool.false_eq_true, if_false] at hr
    rw [dataRows_eq] at hr
    rcases List.mem_map.mp hr with ⟨r0, hr0, rfl⟩
    rw [getD_padTo]
    rw [List.drop_append_eq_append_drop,
      (show 1 - (stripGrid g).length = 0 by
        have := List.length_pos.mpr hstr
        omega),
      List.drop_zero] at hr0
    rcases List.mem_append.mp hr0 with hr0 | hr0
    · exact h6 c hc r0 (mem_drop_one_stripGrid hr0)
    · have : r0 = nr := by simpa using hr0
      subst this
      exact hnrClean c hc2.1 (by omega)
  have hsums := colSumsE_ok_of_clean _ _ hclean1
  refine ⟨utrRun (stripGrid g ++ [nr]), hrun, ?_, ?_⟩
  · rw [utrRun_eq, hsums, stripGrid_of_not_tt hTT1]
    exact countTotalRows_concat_total _ _ rfl
      (countTotalRows_concat_nontotal _ _ hnrTotal h5)
  · rw [utrRun_eq, hsums, stripGrid_of_not_tt hTT1]
    exact lastIsTotal_concat _ _ rfl

/-- Witness for C4 (amended) at the sheet `exG1` with a third transaction. -/
theorem c4_exactly_one_trailing_total_row_witness :
    ∃ gf, add_transaction "2024-01-05" "SiteA" "tools" "7" ⟨exG1, none⟩ =
        .ok ("✅ Transaction added: " ++ pyStrip "2024-01-05" ++ ", " ++ pyStrip "SiteA"
              ++ ", " ++ pyStrip "tools" ++ ", " ++ toString (7 : PyF), ⟨gf, none⟩) ∧
      countTotalRows gf = 1 ∧ lastIsTotal gf = true :=
  c4_exactly_one_trailing_total_row "2024-01-05" "SiteA" "tools" "7" 7 exG1
    (by decide) (by decide) (by decide) (by decide) (by decide) (by decide)

/-- C4 counterexample: the sheet `exG3` has no TOTAL row anywhere (so "at
most one trailing TOTAL row" holds), a valid transaction on `SiteA` is
accepted with a success message and all remote calls succeed, yet the final
sheet contains zero TOTAL rows: the total recomputer aborted on the
non-numeric cell `"abc"`, so no TOTAL row was appended. -/
theorem c4_counterexample_no_total_row_after_success :
    (∀ r ∈ exG3, isTotalRow r = false) ∧
    add_transaction "2024-01-02" "SiteA" "y" "5" ⟨exG3, none⟩ =
      .ok ("✅ Transaction added: 2024-01-02, SiteA, y, 5",
        ⟨exG3 ++ [[Cell.str "2024-01-02", Cell.str "y", Cell.num 5, Cell.str "",
          Cell.num 5]], none⟩) ∧
    countTotalRows (exG3 ++ [[Cell.str "2024-01-02", Cell.str "y", Cell.num 5,
      Cell.str "", Cell.num 5]]) = 0 := by
  refine ⟨by decide, ?_, by decide⟩
  rw [at_run_eq "2024-01-02" "SiteA" "y" "5" 5 exG3 (by decide) (by decide) (by decide)
    (by decide), utrRun_eq]
  simp +decide [stripGrid, dataRows, scannedRows, siteColumns, getAllValues, gridWidth,
    padTo, exG3, rowValues, rtrimRow, isTrailingTotal, isTotalRow,
    Cell.upperIsTotal, Cell.isBlank, blank, colSumsE, colSumE, Cell.toF,
    parseFloat, parseUF, parseFin, usOk, usOkAux, pyIsSpace, floatIsSpace, trimFloat, trimChars, splitOnC,
      parseUnsigned, parseMantissa, natOfDigits, allDigits,
      PyF.fin_add_fin, PyF.neg_fin, PyF.zero_eq, PyF.fin_ofNat,
    newTxnRow, scanTotal, rowContrib, totalsRow, claimColSum, List.range',
    cellIdxD, cellIdx, cellEqS, Except.map]

/-- C10: the unknown-site check of `add_transaction` is `site not in header`
over the whole header row, not only over the site columns.  When the site
argument equals a fixed header cell in columns 1-2 (0-based index `j < 2`,
e.g. `Date` or `Description`), the transaction is accepted with a success
message, and the appended row carries the amount in that fixed column -
overwriting the cell where the date (j = 0) or the description (j = 1)
belongs. -/
theorem c10_site_match_on_fixed_columns (date site description amount_text : String)
    (q : PyF) (g : List (List Cell)) (j : Nat)
    (h1 : (pyStrip site == "Select Site" || pyStrip site == "") = false)
    (h2 : parseDate (pyStrip date) = true)
    (h3 : parseFloat (pyStrip amount_text) = some q)
    (hj : cellIdx (rowValues g 1) (pyStrip site) = some j)
    (hj2 : j < 2) :
    add_transaction date site description amount_text ⟨g, none⟩ =
      .ok ("✅ Transaction added: " ++ pyStrip date ++ ", " ++ pyStrip site ++ ", "
            ++ pyStrip description ++ ", " ++ toString q,
        ⟨utrRun (stripGrid g ++
            [newTxnRow (pyStrip date) (pyStrip description) (rowValues g 1).length
              (j + 1) q (scanTotal (rowValues g 1).length (dataRows g) + q)]), none⟩) ∧
    (newTxnRow (pyStrip date) (pyStrip description) (rowValues g 1).length
      (j + 1) q (scanTotal (rowValues g 1).length (dataRows g) + q)).getD j blank =
      Cell.num q := by
  have h4 : cellMem (rowValues g 1) (pyStrip site) = true := cellIdx_mem hj
  have hidx : cellIdxD (rowValues g 1) (pyStrip site) = j := cellIdxD_of_cellIdx hj
  constructor
  · have hr := at_run_eq date site description amount_text q g h1 h2 h3 h4
    rw [hidx] at hr
    exact hr
  · have hlt : j + 1 - 1 < (rowValues g 1).length - 2 + 3 := by omega
    have := newTxnRow_getD_site (pyStrip date) (pyStrip description)
      (rowValues g 1).length (j + 1) q
      (scanTotal (rowValues g 1).length (dataRows g) + q) hlt
    simpa using this

/-- C6: with a fault-free store, a non-empty stripped name not yet in the
header, and a header containing `Closing Balance` (first occurrence at
0-based index `ci0`; the stored header row carries no trailing blank
cells), `add_site` inserts exactly one new column immediately to the left
of `Closing Balance`: the updated header is the old one with the stripped
name inserted at position `ci0` (so the new cell is the stripped name and
`Closing Balance` sits right of it), every other row of the sheet gets a
blank cell at that position with all its other cells preserved (those left
of the insertion in place, those right of it shifted by one), the row count
is unchanged, and the operation returns the updated ordered site list -
the cells of the new header strictly between column 2 and the last
column. -/
theorem c6_add_site_inserts_column_before_closing_balance (new_site : String)
    (g : List (List Cell)) (ci0 : Nat)
    (hne : (pyStrip new_site == "") = false)
    (hdup : cellMem (rowValues g 1) (pyStrip new_site) = false)
    (hcb : cellIdx (rowValues g 1) "Closing Balance" = some ci0)
    (hhd : rtrimRow (g.getD 0 []) = g.getD 0 []) :
    ∃ g2 : List (List Cell),
      add_site new_site ⟨g, none⟩ =
        .ok (("✅ Site '" ++ pyStrip new_site ++ "' added",
              some (((((rowValues g 1).take ci0 ++ Cell.str (pyStrip new_site) ::
                      (rowValues g 1).drop ci0)).drop 2).dropLast)), ⟨g2, none⟩) ∧
      g2.length = g.length ∧
      g2.getD 0 [] = (rowValues g 1).take ci0 ++ Cell.str (pyStrip new_site) ::
                      (rowValues g 1).drop ci0 ∧
      (g2.getD 0 []).getD ci0 blank = Cell.str (pyStrip new_site) ∧
      (g2.getD 0 []).getD (ci0 + 1) blank = Cell.str "Closing Balance" ∧
      (∀ i, 1 ≤ i → i < g.length →
        ((g2.getD i []).getD ci0 blank = blank ∧
         (∀ jj, jj < ci0 → (g2.getD i []).getD jj blank = (g.getD i []).getD jj blank) ∧
         (∀ jj, ci0 ≤ jj →
           (g2.getD i []).getD (jj + 1) blank = (g.getD i []).getD jj blank))) := by
  have hheader : rowValues g 1 = g.getD 0 [] := hhd
  have hci0lt : ci0 < (rowValues g 1).length := cellIdx_lt_length hcb
  have hg : g ≠ [] := by
    intro he
    subst he
    simp [rowValues, rtrimRow, cellIdx] at hcb
  have hglen : 0 < g.length := List.length_pos.mpr hg
  have hhne : g.getD 0 [] ≠ [] := by
    intro he
    rw [hheader, he] at hci0lt
    simp at hci0lt
  have hcb0 : (g.getD 0 []).getD ci0 blank = Cell.str "Closing Balance" := by
    rw [← hheader]
    exact cellIdx_getD hcb
  have hci0le : ci0 ≤ (g.getD 0 []).length := by
    rw [hheader] at hci0lt
    omega
  have hg2head : (insCol 0 (ci0 + 1)
      (Cell.str (pyStrip new_site) :: List.replicate (g.length - 1) blank) g).getD 0 [] =
      insAt ci0 (Cell.str (pyStrip new_site)) (g.getD 0 []) := by
    rw [insCol_getD, if_pos hglen]
    have h1 : ci0 + 1 - 1 = ci0 := by omega
    rw [h1, padTo_of_le _ _ hci0le]
    rfl
  have hrtrim : rtrimRow (insAt ci0 (Cell.str (pyStrip new_site)) (g.getD 0 [])) =
      insAt ci0 (Cell.str (pyStrip new_site)) (g.getD 0 []) := by
    apply rtrimRow_eq_self_of_last (a := (g.getD 0 []).getLast hhne)
    · rw [insAt_getLast? _ (by rw [← hheader]; exact hci0lt)]
      exact List.getLast?_eq_getLast _ hhne
    · exact rtrim_stable_last_nonblank hhd hhne
  have hrv2 : rowValues (insCol 0 (ci0 + 1)
      (Cell.str (pyStrip new_site) :: List.replicate (g.length - 1) blank) g) 1 =
      insAt ci0 (Cell.str (pyStrip new_site)) (g.getD 0 []) := by
    unfold rowValues
    rw [show (1 : Nat) - 1 = 0 from rfl, hg2head]
    exact hrtrim
  refine ⟨insCol 0 (ci0 + 1)
      (Cell.str (pyStrip new_site) :: List.replicate (g.length - 1) blank) g,
    ?_, ?_, ?_, ?_, ?_, ?_⟩
  · simp only [add_site, hne, Bool.false_eq_true, if_false, rowValuesR, rcall, rbind,
      hdup, asTry, hcb, insertColsR, insertColAt, hrv2]
    rw [hheader]
    rfl
  · exact insCol_length _ _ g 0
  · rw [hg2head, hheader]
    rfl
  · rw [hg2head]
    exact insAt_getD_self _ hci0le
  · rw [hg2head, insAt_getD_succ _ (le_refl ci0) hci0le]
    exact hcb0
  · intro i hi1 hil
    have hrow : (insCol 0 (ci0 + 1)
        (Cell.str (pyStrip new_site) :: List.replicate (g.length - 1) blank) g).getD i [] =
        insAt ci0 blank (padTo ci0 (g.getD i [])) := by
      rw [insCol_getD, if_pos hil]
      have h1 : ci0 + 1 - 1 = ci0 := by omega
      rw [h1]
      obtain ⟨i2, rfl⟩ : ∃ i2, i = i2 + 1 := ⟨i - 1, by omega⟩
      rw [show 0 + (i2 + 1) = i2 + 1 from by omega, List.getD_cons_succ,
        getD_replicate_blank]
    have hpadle : ci0 ≤ (padTo ci0 (g.getD i [])).length := by
      rw [padTo_length]
      omega
    refine ⟨?_, ?_, ?_⟩
    · rw [hrow]
      exact insAt_getD_self _ hpadle
    · intro jj hjj
      rw [hrow, insAt_getD_lt _ hjj hpadle, getD_padTo]
    · intro jj hjj
      rw [hrow, insAt_getD_succ _ hjj hpadle, getD_padTo]

/-- Witness for C6: adding site `"Cafe"` to the example header, where
`Closing Balance` sits at 0-based index 4. -/
theorem c6_add_site_inserts_column_before_closing_balance_witness :
    ∃ g2 : List (List Cell),
      add_site "Cafe" ⟨exG0, none⟩ =
        .ok (("✅ Site '" ++ pyStrip "Cafe" ++ "' added",
              some (((((rowValues exG0 1).take 4 ++ Cell.str (pyStrip "Cafe") ::
                      (rowValues exG0 1).drop 4)).drop 2).dropLast)), ⟨g2, none⟩) ∧
      g2.length = exG0.length ∧
      g2.getD 0 [] = (rowValues exG0 1).take 4 ++ Cell.str (pyStrip "Cafe") ::
                      (rowValues exG0 1).drop 4 ∧
      (g2.getD 0 []).getD 4 blank = Cell.str (pyStrip "Cafe") ∧
      (g2.getD 0 []).getD (4 + 1) blank = Cell.str "Closing Balance" ∧
      (∀ i, 1 ≤ i → i < exG0.length →
        ((g2.getD i []).getD 4 blank = blank ∧
         (∀ jj, jj < 4 → (g2.getD i []).getD jj blank = (exG0.getD i []).getD jj blank) ∧
         (∀ jj, 4 ≤ jj →
           (g2.getD i []).getD (jj + 1) blank = (exG0.getD i []).getD jj blank))) := by
  have hcb : cellIdx (rowValues exG0 1) "Closing Balance" = some 4 := by decide
  exact c6_add_site_inserts_column_before_closing_balance "Cafe" exG0 4
    (by decide) (by decide) hcb (by decide)

/-- Witness for C10: adding a transaction with site `"Date"` on the example
header is accepted and the amount lands in the first column of the new row,
where the date belongs. -/
theorem c10_site_match_on_fixed_columns_witness :
    add_transaction "2024-01-03" "Date" "x" "5" ⟨exG0, none⟩ =
      .ok ("✅ Transaction added: " ++ pyStrip "2024-01-03" ++ ", " ++ pyStrip "Date" ++ ", "
            ++ pyStrip "x" ++ ", " ++ toString (5 : PyF),
        ⟨utrRun (stripGrid exG0 ++
            [newTxnRow (pyStrip "2024-01-03") (pyStrip "x") (rowValues exG0 1).length
              (0 + 1) 5 (scanTotal (rowValues exG0 1).length (dataRows exG0) + 5)]), none⟩) ∧
    (newTxnRow (pyStrip "2024-01-03") (pyStrip "x") (rowValues exG0 1).length
      (0 + 1) 5 (scanTotal (rowValues exG0 1).length (dataRows exG0) + 5)).getD 0 blank =
      Cell.num 5 :=
  c10_site_match_on_fixed_columns "2024-01-03" "Date" "x" "5" 5 exG0 0
    (by decide) (by decide) (by decide) (by decide) (by decide)

end AuditApp
